import Mathlib

/-!
Shallow embedding of `youtube_analytics_db.py` (class `YouTubeAnalyticsDB`).

The SQLite store is modelled as two in-memory tables (`videos`, `metrics`).
Calendar dates are modelled as integers (ordinal day numbers); the Python
code stores dates as ISO strings and parses them back with `strptime`,
which is the identity on the underlying calendar date.  `INSERT OR
REPLACE` on a unique key is modelled as "delete the conflicting rows, then
append the new row" (SQLite deletes conflicting rows and inserts the fresh
row with a new rowid).  The external YouTube Data / Analytics clients are
modelled as an environment of oracles: each API call either raises
(`Except.error`), which the Python code catches, or returns a payload.
SQLite does not enforce the declared `FOREIGN KEY` here (the code never
issues `PRAGMA foreign_keys = ON`), so `store_daily_metrics` accepts rows
for absent videos, exactly as the real code does.
-/

namespace YT

/-- `VideoInfo` dataclass: one row of the `videos` table. -/
structure VideoInfo where
  video_id : String
  title : String
  published_date : Int
  channel_id : String
deriving DecidableEq, Repr

/-- `DailyMetric` dataclass: one row of the `daily_metrics` table. -/
structure DailyMetric where
  video_id : String
  date : Int
  days_since_published : Int
  traffic_source : String
  views : Int
deriving DecidableEq, Repr

/-- The persistent store created by `init_database`: the `videos` table
(primary key `video_id`) and the `daily_metrics` table
(`UNIQUE(video_id, date, traffic_source)`), as ordered row lists. -/
structure DB where
  videos : List VideoInfo
  metrics : List DailyMetric
deriving DecidableEq, Repr

/-- Payload of one item of a YouTube Data `videos().list` response
(`snippet.title`, parsed `snippet.publishedAt`, `snippet.channelId`). -/
structure Snippet where
  title : String
  published_date : Int
  channel_id : String
deriving DecidableEq, Repr

/-- The external world seen by the class: whether each client can be
built, the two remote API calls (either raising or answering), and
`date.today()`.  `videosApi id` answers `none` when the response has no
`items`; `reportsApi id start end` returns `(day, traffic_source, views)`
rows. -/
structure Env where
  data_client_ok : Bool
  analytics_client_ok : Bool
  videosApi : String → Except String (Option Snippet)
  reportsApi : String → Int → Int → Except String (List (Int × String × Int))
  today : Int

/-- `store_video_info`: `INSERT OR REPLACE INTO videos` keyed by the
primary key `video_id`. -/
def store_video_info (db : DB) (v : VideoInfo) : DB :=
  { db with videos := db.videos.filter (fun w => w.video_id != v.video_id) ++ [v] }

/-- The composite natural key `(video_id, date, traffic_source)` of a
`daily_metrics` row. -/
def metricKey (m : DailyMetric) : String × Int × String :=
  (m.video_id, m.date, m.traffic_source)

/-- One `INSERT OR REPLACE INTO daily_metrics` statement: rows conflicting
on the unique key are deleted, the new row is appended. -/
def upsertMetric (db : DB) (m : DailyMetric) : DB :=
  { db with metrics := db.metrics.filter (fun x => metricKey x != metricKey m) ++ [m] }

/-- `store_daily_metrics`: the loop issuing one `INSERT OR REPLACE` per
metric, in list order. -/
def store_daily_metrics (db : DB) (ms : List DailyMetric) : DB :=
  ms.foldl upsertMetric db

/-- A sequence of `store_daily_metrics` calls applied in order. -/
def applyMetricStores (db : DB) (calls : List (List DailyMetric)) : DB :=
  calls.foldl store_daily_metrics db

/-- `fetch_video_data_from_youtube`: `None` when the Data client cannot be
built, when the response has no `items`, or when the call raises;
otherwise a `VideoInfo` built from the first item's snippet. -/
def fetch_video_data_from_youtube (env : Env) (video_id : String) : Option VideoInfo :=
  if env.data_client_ok then
    match env.videosApi video_id with
    | Except.error _ => none
    | Except.ok none => none
    | Except.ok (some s) =>
        some { video_id := video_id, title := s.title,
               published_date := s.published_date, channel_id := s.channel_id }
  else none

/-- `SELECT published_date FROM videos WHERE video_id = ?` followed by
`fetchone()`: the first row of the table matching the id. -/
def lookupVideo (db : DB) (video_id : String) : Option VideoInfo :=
  db.videos.find? (fun v => v.video_id == video_id)

/-- `fetch_daily_analytics_from_youtube`: `[]` when the Analytics client
cannot be built, when the video is absent from the local store, or when
the API call raises; otherwise one `DailyMetric` per returned row with
`days_since_published = (day - published_date).days`. -/
def fetch_daily_analytics_from_youtube (env : Env) (db : DB) (video_id : String)
    (start_date end_date : Int) : List DailyMetric :=
  if env.analytics_client_ok then
    match lookupVideo db video_id with
    | none => []
    | some v =>
        match env.reportsApi video_id start_date end_date with
        | Except.error _ => []
        | Except.ok rows =>
            rows.map (fun r =>
              { video_id := video_id, date := r.1,
                days_since_published := r.1 - v.published_date,
                traffic_source := r.2.1, views := r.2.2 })
  else []

/-- `sync_video`: fetch metadata (abort with `False` on failure), store the
video, then fetch analytics over
`[max(published_date, today - days_back), today]` and store them when the
list is non-empty; return `True`. -/
def sync_video (env : Env) (db : DB) (video_id : String) (days_back : Int) : Bool × DB :=
  match fetch_video_data_from_youtube env video_id with
  | none => (false, db)
  | some vi =>
      let db1 := store_video_info db vi
      let end_date := env.today
      let start_date := max vi.published_date (end_date - days_back)
      let dm := fetch_daily_analytics_from_youtube env db1 video_id start_date end_date
      if dm.isEmpty then (true, db1) else (true, store_daily_metrics db1 dm)

/-- `get_recent_videos`: `SELECT video_id FROM videos ORDER BY
published_date DESC LIMIT ?`. -/
def get_recent_videos (db : DB) (limit : Nat) : List String :=
  ((db.videos.mergeSort (fun a b => decide (b.published_date ≤ a.published_date))).take
      limit).map (fun v => v.video_id)

/-- The `daily_metrics` rows selected by the `analyze_first_week_performance`
query for one video: same `video_id`, `days_since_published BETWEEN 0 AND 6`,
and exact (case-sensitive) `traffic_source` equality. -/
def matchingMetrics (db : DB) (video_id traffic_source : String) : List DailyMetric :=
  db.metrics.filter (fun m =>
    m.video_id == video_id && decide (0 ≤ m.days_since_published) &&
      decide (m.days_since_published ≤ 6) && m.traffic_source == traffic_source)

/-- One value of the mapping returned by `analyze_first_week_performance`. -/
structure WeekRow where
  title : String
  published_date : Int
  first_week_views : Int
deriving DecidableEq, Repr

/-- The per-video query of `analyze_first_week_performance`: a `LEFT JOIN`
whose `WHERE` clause references `daily_metrics` columns (so unmatched rows
are dropped and it acts as an inner join), grouped by the primary key; it
yields a row exactly when the video exists and at least one metric row
matches, with `SUM(dm.views)`. -/
def firstWeekRow (db : DB) (video_id traffic_source : String) : Option WeekRow :=
  match lookupVideo db video_id with
  | none => none
  | some v =>
      let ms := matchingMetrics db video_id traffic_source
      if ms.isEmpty then none
      else some { title := v.title, published_date := v.published_date,
                  first_week_views := (ms.map (fun m => m.views)).sum }

/-- `analyze_first_week_performance`: the result dict, as the association
list of `(video_id, row)` pairs in request order (ids whose query returns
no row are omitted). -/
def analyze_first_week_performance (db : DB) (video_ids : List String)
    (traffic_source : String) : List (String × WeekRow) :=
  video_ids.filterMap (fun vid => (firstWeekRow db vid traffic_source).map (fun r => (vid, r)))

/-- Referential integrity of the store: every metric row's `video_id`
exists in the `videos` table. -/
def refIntegrity (db : DB) : Prop :=
  ∀ m ∈ db.metrics, ∃ v ∈ db.videos, v.video_id = m.video_id

instance (db : DB) : Decidable (refIntegrity db) := by
  unfold refIntegrity; infer_instance

end YT

namespace YT

theorem upsertMetric_filter_key (db : DB) (m : DailyMetric) (k : String × Int × String) :
    (upsertMetric db m).metrics.filter (fun x => metricKey x == k) =
      if metricKey m = k then [m]
      else db.metrics.filter (fun x => metricKey x == k) := by
  unfold upsertMetric
  simp only [List.filter_append, List.filter_filter]
  by_cases h : metricKey m = k
  · subst h
    rw [if_pos rfl]
    have h1 : db.metrics.filter
        (fun x => (metricKey x == metricKey m) && (metricKey x != metricKey m)) = [] := by
      apply List.filter_eq_nil_iff.mpr
      intro a _
      simp [bne]
    rw [h1]
    simp
  · rw [if_neg h]
    have h2 : db.metrics.filter (fun x => (metricKey x == k) && (metricKey x != metricKey m)) =
        db.metrics.filter (fun x => metricKey x == k) := by
      apply List.filter_congr
      intro x _
      by_cases hx : metricKey x = k
      · have hxm : k ≠ metricKey m := fun hh => h hh.symm
        simp [hx, hxm]
      · simp [hx]
    rw [h2]
    have h3 : List.filter (fun x => metricKey x == k) [m] = [] := by
      simp [h]
    rw [h3, List.append_nil]

theorem store_daily_metrics_filter_key (ms : List DailyMetric) (db : DB)
    (k : String × Int × String) :
    (store_daily_metrics db ms).metrics.filter (fun x => metricKey x == k) =
      ((ms.filter (fun x => metricKey x == k)).getLast?).elim
        (db.metrics.filter (fun x => metricKey x == k)) (fun m => [m]) := by
  induction ms using List.reverseRecOn with
  | nil => simp [store_daily_metrics]
  | append_singleton l a ih =>
    unfold store_daily_metrics at ih ⊢
    rw [List.foldl_append, List.foldl_cons, List.foldl_nil, upsertMetric_filter_key,
      List.filter_append]
    by_cases h : metricKey a = k
    · rw [if_pos h]
      have ha : List.filter (fun x => metricKey x == k) [a] = [a] := by simp [h]
      rw [ha, List.getLast?_concat]
      rfl
    · rw [if_neg h, ih]
      have ha : List.filter (fun x => metricKey x == k) [a] = [] := by simp [h]
      rw [ha, List.append_nil]

end YT

namespace YT

/-- C2: after any sequence of `store_daily_metrics` calls whose last write
to the key `(video_id, date, traffic_source)` is the metric `m` (carrying
views `m.views`), the store holds exactly one `daily_metrics` row for that
key, and that row is `m` — last-write-wins: later writes fully replace
earlier ones, values are never accumulated and rows are never duplicated. -/
theorem store_daily_metrics_last_write_wins (db : DB) (calls : List (List DailyMetric))
    (k : String × Int × String) (m : DailyMetric)
    (hlast : (calls.flatten.filter (fun x => metricKey x == k)).getLast? = some m) :
    (applyMetricStores db calls).metrics.filter (fun x => metricKey x == k) = [m] := by
  unfold applyMetricStores
  have hfold : calls.foldl store_daily_metrics db = store_daily_metrics db calls.flatten := by
    unfold store_daily_metrics
    rw [List.foldl_flatten]
  rw [hfold, store_daily_metrics_filter_key, hlast]
  rfl

/-- Witness for C2 at a concrete store: an initial write of 10 views to
key ("A", 5, "BROWSE") in one call, then 20 views in a later call, leaves
exactly the 20-view row for that key. -/
theorem store_daily_metrics_last_write_wins_witness :
    ((([[⟨"A", 5, 5, "BROWSE", 10⟩, ⟨"A", 6, 6, "BROWSE", 3⟩],
        [⟨"A", 5, 5, "BROWSE", 20⟩]] : List (List DailyMetric)).flatten.filter
          (fun x => metricKey x == ("A", 5, "BROWSE"))).getLast? =
        some ⟨"A", 5, 5, "BROWSE", 20⟩) ∧
    (applyMetricStores ⟨[], []⟩
        [[⟨"A", 5, 5, "BROWSE", 10⟩, ⟨"A", 6, 6, "BROWSE", 3⟩],
         [⟨"A", 5, 5, "BROWSE", 20⟩]]).metrics.filter
        (fun x => metricKey x == ("A", 5, "BROWSE")) = [⟨"A", 5, 5, "BROWSE", 20⟩] :=
  ⟨by decide,
   store_daily_metrics_last_write_wins ⟨[], []⟩
     [[⟨"A", 5, 5, "BROWSE", 10⟩, ⟨"A", 6, 6, "BROWSE", 3⟩],
      [⟨"A", 5, 5, "BROWSE", 20⟩]] ("A", 5, "BROWSE") ⟨"A", 5, 5, "BROWSE", 20⟩ (by decide)⟩

/-- C3: when the metadata fetch fails — the provider has no record for the
id (`ok none`) or the fetch raises (`error`) — `sync_video` returns
failure and leaves the store exactly as it was: no `videos` row and no
`daily_metrics` rows are written by the call. -/
theorem sync_video_metadata_failure (env : Env) (db : DB) (video_id : String)
    (days_back : Int)
    (h : env.videosApi video_id = Except.ok none ∨
         ∃ e, env.videosApi video_id = Except.error e) :
    sync_video env db video_id days_back = (false, db) := by
  have hfetch : fetch_video_data_from_youtube env video_id = none := by
    unfold fetch_video_data_from_youtube
    rcases h with h | ⟨e, h⟩ <;> rw [h] <;> simp
  unfold sync_video
  rw [hfetch]

/-- Witness for C3: a provider with no record of "A" makes `sync_video`
return `false` with the store unchanged. -/
theorem sync_video_metadata_failure_witness :
    sync_video
      { data_client_ok := true, analytics_client_ok := true,
        videosApi := fun _ => Except.ok none,
        reportsApi := fun _ _ _ => Except.ok [], today := 100 }
      ⟨[], []⟩ "A" 30 = (false, ⟨[], []⟩) :=
  sync_video_metadata_failure
    { data_client_ok := true, analytics_client_ok := true,
      videosApi := fun _ => Except.ok none,
      reportsApi := fun _ _ _ => Except.ok [], today := 100 }
    ⟨[], []⟩ "A" 30 (Or.inl rfl)

end YT

namespace YT

/-- C4: every `DailyMetric` constructed during a sync (i.e. returned by
`fetch_daily_analytics_from_youtube`) has
`days_since_published = date - published_date` of the video it belongs to
(the stored video row the function looked up); in particular it is `0`
when the metric's date equals the video's published date. -/
theorem fetch_daily_days_since_published (env : Env) (db : DB) (video_id : String)
    (s e : Int) (m : DailyMetric)
    (hm : m ∈ fetch_daily_analytics_from_youtube env db video_id s e) :
    ∃ v, lookupVideo db video_id = some v ∧ m.video_id = video_id ∧
      m.days_since_published = m.date - v.published_date ∧
      (m.date = v.published_date → m.days_since_published = 0) := by
  unfold fetch_daily_analytics_from_youtube at hm
  by_cases hc : env.analytics_client_ok
  · rw [if_pos hc] at hm
    cases hv : lookupVideo db video_id with
    | none => rw [hv] at hm; cases hm
    | some v =>
        rw [hv] at hm
        cases hr : env.reportsApi video_id s e with
        | error err => rw [hr] at hm; cases hm
        | ok rows =>
            rw [hr] at hm
            rcases List.mem_map.mp hm with ⟨r, _, hrm⟩
            refine ⟨v, rfl, ?_, ?_, ?_⟩
            · rw [← hrm]
            · rw [← hrm]
            · intro hd
              rw [← hrm] at hd ⊢
              simp only [hd.symm]
              omega
  · rw [if_neg hc] at hm
    cases hm

/-- Witness for C4: a report row on the publish day itself yields a metric
with `days_since_published = 0`. -/
theorem fetch_daily_days_since_published_witness :
    (⟨"A", 10, 0, "BROWSE", 5⟩ : DailyMetric) ∈
      fetch_daily_analytics_from_youtube
        { data_client_ok := true, analytics_client_ok := true,
          videosApi := fun _ => Except.ok none,
          reportsApi := fun _ _ _ => Except.ok [(10, "BROWSE", 5)], today := 20 }
        ⟨[⟨"A", "T", 10, "C"⟩], []⟩ "A" 10 20 ∧
    ∃ v, lookupVideo ⟨[⟨"A", "T", 10, "C"⟩], []⟩ "A" = some v ∧
      (⟨"A", 10, 0, "BROWSE", 5⟩ : DailyMetric).video_id = "A" ∧
      (⟨"A", 10, 0, "BROWSE", 5⟩ : DailyMetric).days_since_published =
        (⟨"A", 10, 0, "BROWSE", 5⟩ : DailyMetric).date - v.published_date ∧
      ((⟨"A", 10, 0, "BROWSE", 5⟩ : DailyMetric).date = v.published_date →
        (⟨"A", 10, 0, "BROWSE", 5⟩ : DailyMetric).days_since_published = 0) :=
  ⟨by decide,
   fetch_daily_days_since_published
     { data_client_ok := true, analytics_client_ok := true,
       videosApi := fun _ => Except.ok none,
       reportsApi := fun _ _ _ => Except.ok [(10, "BROWSE", 5)], today := 20 }
     ⟨[⟨"A", "T", 10, "C"⟩], []⟩ "A" 10 20 ⟨"A", 10, 0, "BROWSE", 5⟩ (by decide)⟩

/-- C5: when the metadata fetch succeeds, `sync_video` fetches analytics
over exactly the window `[max(published_date, today - days_back), today]`,
whose start never precedes the publication date. -/
theorem sync_video_window (env : Env) (db : DB) (video_id : String) (days_back : Int)
    (vi : VideoInfo) (h : fetch_video_data_from_youtube env video_id = some vi) :
    vi.published_date ≤ max vi.published_date (env.today - days_back) ∧
    sync_video env db video_id days_back =
      (true,
        if (fetch_daily_analytics_from_youtube env (store_video_info db vi) video_id
              (max vi.published_date (env.today - days_back)) env.today).isEmpty
        then store_video_info db vi
        else store_daily_metrics (store_video_info db vi)
          (fetch_daily_analytics_from_youtube env (store_video_info db vi) video_id
            (max vi.published_date (env.today - days_back)) env.today)) := by
  refine ⟨le_max_left _ _, ?_⟩
  unfold sync_video
  rw [h]
  by_cases hdm : (fetch_daily_analytics_from_youtube env (store_video_info db vi) video_id
      (max vi.published_date (env.today - days_back)) env.today).isEmpty <;>
    simp [hdm]

end YT

namespace YT

/-- Witness for C5: with the video published on day 10, `today = 20` and
`days_back = 30`, the fetched window starts at `max 10 (20 - 30) = 10`,
not before publication. -/
theorem sync_video_window_witness :
    (⟨"A", "T", 10, "C"⟩ : VideoInfo).published_date ≤
      max (⟨"A", "T", 10, "C"⟩ : VideoInfo).published_date
        (({ data_client_ok := true, analytics_client_ok := true,
            videosApi := fun _ => Except.ok (some ⟨"T", 10, "C"⟩),
            reportsApi := fun _ _ _ => Except.ok [], today := 20 } : Env).today - 30) ∧
    sync_video
      { data_client_ok := true, analytics_client_ok := true,
        videosApi := fun _ => Except.ok (some ⟨"T", 10, "C"⟩),
        reportsApi := fun _ _ _ => Except.ok [], today := 20 }
      ⟨[], []⟩ "A" 30 =
      (true,
        if (fetch_daily_analytics_from_youtube
              { data_client_ok := true, analytics_client_ok := true,
                videosApi := fun _ => Except.ok (some ⟨"T", 10, "C"⟩),
                reportsApi := fun _ _ _ => Except.ok [], today := 20 }
              (store_video_info ⟨[], []⟩ ⟨"A", "T", 10, "C"⟩) "A"
              (max (⟨"A", "T", 10, "C"⟩ : VideoInfo).published_date
                (({ data_client_ok := true, analytics_client_ok := true,
                    videosApi := fun _ => Except.ok (some ⟨"T", 10, "C"⟩),
                    reportsApi := fun _ _ _ => Except.ok [], today := 20 } : Env).today - 30))
              ({ data_client_ok := true, analytics_client_ok := true,
                 videosApi := fun _ => Except.ok (some ⟨"T", 10, "C"⟩),
                 reportsApi := fun _ _ _ => Except.ok [], today := 20 } : Env).today).isEmpty
        then store_video_info ⟨[], []⟩ ⟨"A", "T", 10, "C"⟩
        else store_daily_metrics (store_video_info ⟨[], []⟩ ⟨"A", "T", 10, "C"⟩)
          (fetch_daily_analytics_from_youtube
            { data_client_ok := true, analytics_client_ok := true,
              videosApi := fun _ => Except.ok (some ⟨"T", 10, "C"⟩),
              reportsApi := fun _ _ _ => Except.ok [], today := 20 }
            (store_video_info ⟨[], []⟩ ⟨"A", "T", 10, "C"⟩) "A"
            (max (⟨"A", "T", 10, "C"⟩ : VideoInfo).published_date
              (({ data_client_ok := true, analytics_client_ok := true,
                  videosApi := fun _ => Except.ok (some ⟨"T", 10, "C"⟩),
                  reportsApi := fun _ _ _ => Except.ok [], today := 20 } : Env).today - 30))
            ({ data_client_ok := true, analytics_client_ok := true,
               videosApi := fun _ => Except.ok (some ⟨"T", 10, "C"⟩),
               reportsApi := fun _ _ _ => Except.ok [], today := 20 } : Env).today)) :=
  sync_video_window
    { data_client_ok := true, analytics_client_ok := true,
      videosApi := fun _ => Except.ok (some ⟨"T", 10, "C"⟩),
      reportsApi := fun _ _ _ => Except.ok [], today := 20 }
    ⟨[], []⟩ "A" 30 ⟨"A", "T", 10, "C"⟩ rfl

end YT

namespace YT

theorem store_video_info_filter_id (db : DB) (v : VideoInfo) :
    (store_video_info db v).videos.filter (fun w => w.video_id == v.video_id) = [v] := by
  unfold store_video_info
  rw [List.filter_append, List.filter_filter]
  have h1 : db.videos.filter
      (fun w => (w.video_id == v.video_id) && (w.video_id != v.video_id)) = [] := by
    apply List.filter_eq_nil_iff.mpr
    intro a _
    simp [bne]
  rw [h1]
  simp

/-- C8: storing a video with title T1 and re-upserting the same `video_id`
with title T2 leaves exactly one `videos` row for that id, and it is the
second record; re-upserting identical input leaves the store state
unchanged (idempotence); upserting a previously absent id succeeds, the
row being present afterwards. -/
theorem store_video_info_upsert (db : DB) (v1 v2 v : VideoInfo)
    (h : v1.video_id = v2.video_id) :
    ((store_video_info (store_video_info db v1) v2).videos.filter
        (fun w => w.video_id == v1.video_id) = [v2]) ∧
    store_video_info (store_video_info db v) v = store_video_info db v ∧
    v ∈ (store_video_info db v).videos := by
  refine ⟨?_, ?_, ?_⟩
  · rw [h]
    exact store_video_info_filter_id _ v2
  · unfold store_video_info
    congr 1
    rw [List.filter_append, List.filter_filter]
    have h2 : List.filter (fun w => w.video_id != v.video_id) [v] = [] := by simp
    rw [h2, List.append_nil]
    have h3 : List.filter (fun a => a.video_id != v.video_id && a.video_id != v.video_id)
        db.videos = List.filter (fun w => w.video_id != v.video_id) db.videos := by
      apply List.filter_congr
      intro x _
      exact Bool.and_self _
    rw [h3]
  · unfold store_video_info
    simp

/-- Witness for C8 at concrete rows: re-titling video "A" from "T1" to
"T2" leaves the single row with title "T2"; re-upserting "B" is a no-op;
"B" is present after its first upsert. -/
theorem store_video_info_upsert_witness :
    ((store_video_info (store_video_info ⟨[], []⟩ ⟨"A", "T1", 0, "C"⟩) ⟨"A", "T2", 0, "C"⟩).videos.filter
        (fun w => w.video_id == (⟨"A", "T1", 0, "C"⟩ : VideoInfo).video_id) =
      [⟨"A", "T2", 0, "C"⟩]) ∧
    store_video_info (store_video_info ⟨[], []⟩ ⟨"B", "T", 1, "C"⟩) ⟨"B", "T", 1, "C"⟩ =
      store_video_info ⟨[], []⟩ ⟨"B", "T", 1, "C"⟩ ∧
    (⟨"B", "T", 1, "C"⟩ : VideoInfo) ∈ (store_video_info ⟨[], []⟩ ⟨"B", "T", 1, "C"⟩).videos :=
  store_video_info_upsert ⟨[], []⟩ ⟨"A", "T1", 0, "C"⟩ ⟨"A", "T2", 0, "C"⟩
    ⟨"B", "T", 1, "C"⟩ rfl

end YT

namespace YT

/-- C9: `get_recent_videos` returns at most `limit` ids, and they are the
ids of a list of video rows ordered by `published_date` descending (each
row's date is greater than or equal to every later one's). -/
theorem get_recent_videos_spec (db : DB) (limit : Nat) :
    ∃ l : List VideoInfo,
      get_recent_videos db limit = l.map (fun v => v.video_id) ∧
      l.length ≤ limit ∧
      l.Pairwise (fun a b => b.published_date ≤ a.published_date) := by
  refine ⟨(db.videos.mergeSort
      (fun a b => decide (b.published_date ≤ a.published_date))).take limit, rfl, ?_, ?_⟩
  · rw [List.length_take]
    exact min_le_left _ _
  · apply List.Pairwise.sublist (List.take_sublist _ _)
    have hs := @List.sorted_mergeSort VideoInfo
      (fun a b => decide (b.published_date ≤ a.published_date))
      (fun a b c hab hbc => by
        simp only [decide_eq_true_eq] at hab hbc ⊢
        exact le_trans hbc hab)
      (fun a b => by
        simp only [Bool.or_eq_true, decide_eq_true_eq]
        exact le_total _ _)
      db.videos
    exact hs.imp (fun hab => by simpa using hab)

/-- C1: for a requested `video_id` whose video row is in the store, if at
least one `daily_metrics` row matches (`0 ≤ days_since_published ≤ 6` and
exact `traffic_source` equality) then `analyze_first_week_performance`
maps it to its title, published date and the sum of `views` over exactly
those rows; a requested id with zero matching rows is absent from the
result, never present with zero views. -/
theorem analyze_first_week_spec (db : DB) (video_ids : List String)
    (vid ts : String) (hmem : vid ∈ video_ids) :
    (∀ v, lookupVideo db vid = some v →
      matchingMetrics db vid ts ≠ [] →
      (vid, (⟨v.title, v.published_date,
          ((matchingMetrics db vid ts).map (fun m => m.views)).sum⟩ : WeekRow)) ∈
        analyze_first_week_performance db video_ids ts) ∧
    (matchingMetrics db vid ts = [] →
      ∀ r, (vid, r) ∉ analyze_first_week_performance db video_ids ts) := by
  constructor
  · intro v hv hne
    apply List.mem_filterMap.mpr
    refine ⟨vid, hmem, ?_⟩
    cases hms : matchingMetrics db vid ts with
    | nil => exact absurd hms hne
    | cons a t => simp [firstWeekRow, hv, hms]
  · intro hempty r hr
    rcases List.mem_filterMap.mp hr with ⟨a, _, heq⟩
    cases hfw : firstWeekRow db a ts with
    | none => rw [hfw] at heq; cases heq
    | some w =>
        rw [hfw] at heq
        have hpair : a = vid ∧ w = r := by
          have := Option.some.inj heq
          exact ⟨congrArg Prod.fst this, congrArg Prod.snd this⟩
        rcases hpair with ⟨rfl, rfl⟩
        unfold firstWeekRow at hfw
        cases hlv : lookupVideo db a with
        | none => rw [hlv] at hfw; cases hfw
        | some v =>
            rw [hlv] at hfw
            simp only [hempty] at hfw
            cases hfw

/-- Witness for C1: the spec's own scenario — video "A" published on day 0
with BROWSE rows of 100 views (day 0), 50 views (day 2) and 10 views
(day 9) — yields 150 first-week views, and (second conjunct, vacuously
here) an id with no matching rows would be omitted. -/
theorem analyze_first_week_spec_witness :
    ("A" ∈ (["A"] : List String)) ∧
    ((∀ v, lookupVideo ⟨[⟨"A", "T", 0, "C"⟩],
          [⟨"A", 0, 0, "BROWSE", 100⟩, ⟨"A", 2, 2, "BROWSE", 50⟩,
           ⟨"A", 9, 9, "BROWSE", 10⟩]⟩ "A" = some v →
      matchingMetrics ⟨[⟨"A", "T", 0, "C"⟩],
          [⟨"A", 0, 0, "BROWSE", 100⟩, ⟨"A", 2, 2, "BROWSE", 50⟩,
           ⟨"A", 9, 9, "BROWSE", 10⟩]⟩ "A" "BROWSE" ≠ [] →
      ("A", (⟨v.title, v.published_date,
          ((matchingMetrics ⟨[⟨"A", "T", 0, "C"⟩],
              [⟨"A", 0, 0, "BROWSE", 100⟩, ⟨"A", 2, 2, "BROWSE", 50⟩,
               ⟨"A", 9, 9, "BROWSE", 10⟩]⟩ "A" "BROWSE").map (fun m => m.views)).sum⟩ : WeekRow)) ∈
        analyze_first_week_performance ⟨[⟨"A", "T", 0, "C"⟩],
          [⟨"A", 0, 0, "BROWSE", 100⟩, ⟨"A", 2, 2, "BROWSE", 50⟩,
           ⟨"A", 9, 9, "BROWSE", 10⟩]⟩ ["A"] "BROWSE") ∧
    (matchingMetrics ⟨[⟨"A", "T", 0, "C"⟩],
          [⟨"A", 0, 0, "BROWSE", 100⟩, ⟨"A", 2, 2, "BROWSE", 50⟩,
           ⟨"A", 9, 9, "BROWSE", 10⟩]⟩ "A" "BROWSE" = [] →
      ∀ r, ("A", r) ∉ analyze_first_week_performance ⟨[⟨"A", "T", 0, "C"⟩],
          [⟨"A", 0, 0, "BROWSE", 100⟩, ⟨"A", 2, 2, "BROWSE", 50⟩,
           ⟨"A", 9, 9, "BROWSE", 10⟩]⟩ ["A"] "BROWSE")) :=
  ⟨by decide,
   analyze_first_week_spec ⟨[⟨"A", "T", 0, "C"⟩],
       [⟨"A", 0, 0, "BROWSE", 100⟩, ⟨"A", 2, 2, "BROWSE", 50⟩,
        ⟨"A", 9, 9, "BROWSE", 10⟩]⟩ ["A"] "A" "BROWSE" (by decide)⟩

end YT

namespace YT

theorem store_video_info_id_mem (db : DB) (v w : VideoInfo) (hw : w ∈ db.videos) :
    ∃ u ∈ (store_video_info db v).videos, u.video_id = w.video_id := by
  unfold store_video_info
  by_cases h : w.video_id = v.video_id
  · exact ⟨v, by simp, h.symm⟩
  · refine ⟨w, ?_, rfl⟩
    apply List.mem_append_left
    exact List.mem_filter.mpr ⟨hw, by simp [h]⟩

theorem store_daily_metrics_videos (db : DB) (ms : List DailyMetric) :
    (store_daily_metrics db ms).videos = db.videos := by
  unfold store_daily_metrics
  induction ms generalizing db with
  | nil => rfl
  | cons a t ih => rw [List.foldl_cons, ih]; rfl

theorem mem_store_daily_metrics (db : DB) (ms : List DailyMetric) (m : DailyMetric)
    (hm : m ∈ (store_daily_metrics db ms).metrics) : m ∈ db.metrics ∨ m ∈ ms := by
  unfold store_daily_metrics at hm
  induction ms generalizing db with
  | nil => exact Or.inl hm
  | cons a t ih =>
      rw [List.foldl_cons] at hm
      rcases ih (upsertMetric db a) hm with h | h
      · unfold upsertMetric at h
        rcases List.mem_append.mp h with h2 | h2
        · exact Or.inl (List.mem_of_mem_filter h2)
        · simp at h2
          exact Or.inr (by simp [h2])
      · exact Or.inr (List.mem_cons_of_mem a h)

theorem fetch_daily_shape (env : Env) (db : DB) (vid : String) (s e : Int)
    (m : DailyMetric) (hm : m ∈ fetch_daily_analytics_from_youtube env db vid s e) :
    m.video_id = vid ∧ ∃ v, lookupVideo db vid = some v := by
  unfold fetch_daily_analytics_from_youtube at hm
  by_cases hc : env.analytics_client_ok
  · rw [if_pos hc] at hm
    cases hv : lookupVideo db vid with
    | none => rw [hv] at hm; cases hm
    | some v =>
        rw [hv] at hm
        cases hr : env.reportsApi vid s e with
        | error err => rw [hr] at hm; cases hm
        | ok rows =>
            rw [hr] at hm
            rcases List.mem_map.mp hm with ⟨r, _, hrm⟩
            exact ⟨by rw [← hrm], v, rfl⟩
  · rw [if_neg hc] at hm
    cases hm

theorem refIntegrity_store_video_info (db : DB) (v : VideoInfo) (h : refIntegrity db) :
    refIntegrity (store_video_info db v) := by
  intro m hm
  rcases h m hm with ⟨w, hw, hid⟩
  rcases store_video_info_id_mem db v w hw with ⟨u, hu, hu2⟩
  exact ⟨u, hu, hu2.trans hid⟩

theorem refIntegrity_store_daily_metrics (db : DB) (ms : List DailyMetric)
    (h : refIntegrity db)
    (hms : ∀ m ∈ ms, ∃ v ∈ db.videos, v.video_id = m.video_id) :
    refIntegrity (store_daily_metrics db ms) := by
  intro m hm
  rw [store_daily_metrics_videos]
  rcases mem_store_daily_metrics db ms m hm with h2 | h2
  · exact h m h2
  · exact hms m h2

theorem refIntegrity_sync (env : Env) (db : DB) (vid : String) (days_back : Int)
    (h : refIntegrity db) : refIntegrity (sync_video env db vid days_back).2 := by
  unfold sync_video
  cases hf : fetch_video_data_from_youtube env vid with
  | none => exact h
  | some vi =>
      have h1 : refIntegrity (store_video_info db vi) :=
        refIntegrity_store_video_info db vi h
      by_cases hdm : (fetch_daily_analytics_from_youtube env (store_video_info db vi) vid
          (max vi.published_date (env.today - days_back)) env.today).isEmpty
      · simpa [hdm] using h1
      · simp only [hdm, if_false, Bool.false_eq_true]
        apply refIntegrity_store_daily_metrics _ _ h1
        intro m hm
        rcases fetch_daily_shape env (store_video_info db vi) vid _ _ m hm with
          ⟨hid, v, hv⟩
        refine ⟨v, List.mem_of_find?_eq_some hv, ?_⟩
        have hpred := List.find?_some hv
        rw [hid]
        exact beq_iff_eq.mp hpred

end YT

namespace YT

/-- C6 counterexample: the storage layer does not enforce referential
integrity — `store_daily_metrics` called on an empty store with a metric
for the unstored video "A" produces a state holding a `daily_metrics` row
whose `video_id` is absent from `videos`. -/
theorem store_daily_metrics_violates_refintegrity :
    refIntegrity ⟨[], []⟩ ∧
    ¬ refIntegrity (store_daily_metrics ⟨[], []⟩ [⟨"A", 0, 0, "BROWSE", 1⟩]) :=
  ⟨by decide, by decide⟩

/-- C6 (amended): `store_video_info` and `sync_video` preserve referential
integrity, and `store_daily_metrics` preserves it provided every metric it
is given refers to a stored video; unconditionally, the storage layer
accepts metric rows for absent video ids (the declared FOREIGN KEY is not
enforced). -/
theorem refIntegrity_preservation (db : DB) (v : VideoInfo) (ms : List DailyMetric)
    (env : Env) (vid : String) (days_back : Int) (h : refIntegrity db) :
    refIntegrity (store_video_info db v) ∧
    ((∀ m ∈ ms, ∃ w ∈ db.videos, w.video_id = m.video_id) →
      refIntegrity (store_daily_metrics db ms)) ∧
    refIntegrity (sync_video env db vid days_back).2 :=
  ⟨refIntegrity_store_video_info db v h,
   fun hms => refIntegrity_store_daily_metrics db ms h hms,
   refIntegrity_sync env db vid days_back h⟩

/-- Witness for the amended C6 at a concrete store holding video "A" with
one metric row for it. -/
theorem refIntegrity_preservation_witness :
    refIntegrity (store_video_info ⟨[⟨"A", "T", 0, "C"⟩], [⟨"A", 1, 1, "BROWSE", 2⟩]⟩
      ⟨"B", "U", 5, "C"⟩) ∧
    ((∀ m ∈ ([⟨"A", 2, 2, "BROWSE", 3⟩] : List DailyMetric),
        ∃ w ∈ (⟨[⟨"A", "T", 0, "C"⟩], [⟨"A", 1, 1, "BROWSE", 2⟩]⟩ : DB).videos,
          w.video_id = m.video_id) →
      refIntegrity (store_daily_metrics ⟨[⟨"A", "T", 0, "C"⟩], [⟨"A", 1, 1, "BROWSE", 2⟩]⟩
        [⟨"A", 2, 2, "BROWSE", 3⟩])) ∧
    refIntegrity (sync_video
      { data_client_ok := false, analytics_client_ok := false,
        videosApi := fun _ => Except.ok none,
        reportsApi := fun _ _ _ => Except.ok [], today := 9 }
      ⟨[⟨"A", "T", 0, "C"⟩], [⟨"A", 1, 1, "BROWSE", 2⟩]⟩ "A" 30).2 :=
  refIntegrity_preservation ⟨[⟨"A", "T", 0, "C"⟩], [⟨"A", 1, 1, "BROWSE", 2⟩]⟩
    ⟨"B", "U", 5, "C"⟩ [⟨"A", 2, 2, "BROWSE", 3⟩]
    { data_client_ok := false, analytics_client_ok := false,
      videosApi := fun _ => Except.ok none,
      reportsApi := fun _ _ _ => Except.ok [], today := 9 }
    "A" 30 (by decide)

/-- C10: `fetch_daily_analytics_from_youtube` first looks the video up in
the store and returns `[]` when it is absent, so every metric row added by
`sync_video` refers to a `video_id` present in the `videos` table of the
resulting state. -/
theorem sync_metrics_reference_stored_video (env : Env) (db : DB) (vid : String)
    (s e days_back : Int) (m : DailyMetric) :
    (lookupVideo db vid = none → fetch_daily_analytics_from_youtube env db vid s e = []) ∧
    (m ∈ (sync_video env db vid days_back).2.metrics → m ∉ db.metrics →
      ∃ v ∈ (sync_video env db vid days_back).2.videos, v.video_id = m.video_id) := by
  constructor
  · intro h
    unfold fetch_daily_analytics_from_youtube
    rw [h]
    by_cases hc : env.analytics_client_ok
    · rw [if_pos hc]
    · rw [if_neg hc]
  · intro hm hnotin
    unfold sync_video at hm ⊢
    cases hf : fetch_video_data_from_youtube env vid with
    | none =>
        rw [hf] at hm
        exact absurd hm hnotin
    | some vi =>
        rw [hf] at hm
        by_cases hdm : (fetch_daily_analytics_from_youtube env (store_video_info db vi) vid
            (max vi.published_date (env.today - days_back)) env.today).isEmpty
        · simp only [hdm, if_true] at hm
          exact absurd hm hnotin
        · simp only [hdm, if_false, Bool.false_eq_true] at hm ⊢
          rw [store_daily_metrics_videos]
          rcases mem_store_daily_metrics _ _ m hm with h2 | h2
          · exact absurd h2 hnotin
          · rcases fetch_daily_shape env (store_video_info db vi) vid _ _ m h2 with
              ⟨hid, v, hv⟩
            unfold lookupVideo at hv
            have hpred := List.find?_some hv
            refine ⟨v, List.mem_of_find?_eq_some hv, ?_⟩
            rw [hid]
            exact beq_iff_eq.mp hpred

end YT

namespace YT

/-- Environment used to exercise C10 concretely: metadata and analytics
both answer, the analytics report carrying one publish-day row. -/
def envC10 : Env :=
  { data_client_ok := true, analytics_client_ok := true,
    videosApi := fun _ => Except.ok (some ⟨"T", 0, "C"⟩),
    reportsApi := fun _ _ _ => Except.ok [(0, "BROWSE", 5)], today := 3 }

/-- Witness for C10: fetching analytics for the unstored id "B" returns
nothing, and the metric row written by syncing "A" into an empty store
refers to the video row the same sync stored. -/
theorem sync_metrics_reference_stored_video_witness :
    fetch_daily_analytics_from_youtube envC10 ⟨[], []⟩ "B" 0 3 = [] ∧
    ∃ v ∈ (sync_video envC10 ⟨[], []⟩ "A" 30).2.videos,
      v.video_id = (⟨"A", 0, 0, "BROWSE", 5⟩ : DailyMetric).video_id :=
  ⟨(sync_metrics_reference_stored_video envC10 ⟨[], []⟩ "B" 0 3 30
      ⟨"A", 0, 0, "BROWSE", 5⟩).1 rfl,
   (sync_metrics_reference_stored_video envC10 ⟨[], []⟩ "A" 0 3 30
      ⟨"A", 0, 0, "BROWSE", 5⟩).2 (by decide) (by decide)⟩

/-- Environment used to refute C7: the metadata provider knows the video,
the analytics call raises (auth/network/quota failure). -/
def envC7 : Env :=
  { data_client_ok := true, analytics_client_ok := true,
    videosApi := fun _ => Except.ok (some ⟨"T", 0, "C"⟩),
    reportsApi := fun _ _ _ => Except.error "quota", today := 10 }

/-- C7 counterexample: after a successful metadata fetch for "A", the
analytics API call made by `sync_video` fails, yet `sync_video` returns
success (`True`), not failure — the error is swallowed. -/
theorem sync_video_swallows_analytics_error :
    fetch_video_data_from_youtube envC7 "A" = some ⟨"A", "T", 0, "C"⟩ ∧
    envC7.reportsApi "A" (max (0 : Int) (10 - 30)) 10 = Except.error "quota" ∧
    (sync_video envC7 ⟨[], []⟩ "A" 30).1 = true :=
  ⟨rfl, rfl, by decide⟩

/-- C7 (amended): when the analytics API call fails after a successful
metadata fetch, `sync_video` swallows the failure: it returns success and
the resulting store holds the video row but none of the metrics. -/
theorem sync_video_analytics_error_returns_success (env : Env) (db : DB)
    (vid : String) (days_back : Int) (vi : VideoInfo) (err : String)
    (h1 : fetch_video_data_from_youtube env vid = some vi)
    (h2 : env.reportsApi vid (max vi.published_date (env.today - days_back)) env.today =
      Except.error err) :
    sync_video env db vid days_back = (true, store_video_info db vi) := by
  have hdm : fetch_daily_analytics_from_youtube env (store_video_info db vi) vid
      (max vi.published_date (env.today - days_back)) env.today = [] := by
    unfold fetch_daily_analytics_from_youtube
    by_cases hc : env.analytics_client_ok
    · rw [if_pos hc]
      cases hlv : lookupVideo (store_video_info db vi) vid with
      | none => rfl
      | some v => rw [h2]
    · rw [if_neg hc]
  unfold sync_video
  rw [h1]
  show (if (fetch_daily_analytics_from_youtube env (store_video_info db vi) vid
        (max vi.published_date (env.today - days_back)) env.today).isEmpty
      then (true, store_video_info db vi)
      else (true, store_daily_metrics (store_video_info db vi)
        (fetch_daily_analytics_from_youtube env (store_video_info db vi) vid
          (max vi.published_date (env.today - days_back)) env.today))) =
    (true, store_video_info db vi)
  rw [hdm]
  rfl

/-- Witness for the amended C7 in the failing environment of the
counterexample: the sync reports success and stores only the video row. -/
theorem sync_video_analytics_error_returns_success_witness :
    sync_video envC7 ⟨[], []⟩ "A" 30 =
      (true, store_video_info ⟨[], []⟩ ⟨"A", "T", 0, "C"⟩) :=
  sync_video_analytics_error_returns_success envC7 ⟨[], []⟩ "A" 30
    ⟨"A", "T", 0, "C"⟩ "quota" rfl rfl

end YT
